import Mathlib

/-!
Verification of the `endpoint` transport library (TCP / UDP / Unix-domain /
serial endpoints) against its natural-language specification.

The Go source is embedded shallowly: pure translation steps (terminal-attribute
construction, registry bookkeeping) become Lean functions; syscall-driven loops
(serial `Read`/`Write`, `Open`) become functions over an explicit trace of
syscall outcomes supplied by the environment.  Machine integers are modelled by
`Nat`/`Int`; no overflow is relevant to the claims checked here.
-/

deriving instance DecidableEq for Except

namespace Endpoint

/-! ## Terminal-attribute constants (Linux termios values used by the source) -/

def CSIZE : Nat := 0x30
def CS5 : Nat := 0x00
def CS6 : Nat := 0x10
def CS7 : Nat := 0x20
def CS8 : Nat := 0x30
def CSTOPB : Nat := 0x40
def CREAD : Nat := 0x80
def PARENB : Nat := 0x100
def PARODD : Nat := 0x200
def CLOCAL : Nat := 0x800
def CMSPAR : Nat := 0x40000000
def INPCK : Nat := 0x10

/-- Go's `x &^ y` (AND NOT): the bits of `x` outside `y`.  Since
`x = (x &&& y) + (x &&& ~y)` with the two summands bit-disjoint, subtracting
the overlap yields exactly the cleared value. -/
def andNot (x y : Nat) : Nat := x - (x &&& y)

/-- Shallow model of `syscall.Termios`: the fields the source manipulates. -/
structure Termios where
  cflag : Nat
  iflag : Nat
  ispeed : Nat
  ospeed : Nat
deriving DecidableEq, Repr

/-- Association-list lookup, modelling a Go map's `v, ok := m[k]`. -/
def lookupTbl : List (Nat × Nat) → Nat → Option Nat
  | [], _ => none
  | (k, v) :: rest, key => if k = key then some v else lookupTbl rest key

/-- Modelled from the spec: the serial baud-rate table (`baudRates`) is in a
repository file not present under `src/` ("look up baud rate in a fixed rate
table").  Modelled as the standard Linux `Bxxx` rate table. -/
def baudRates : List (Nat × Nat) :=
  [(50, 0o1), (75, 0o2), (110, 0o3), (134, 0o4), (150, 0o5), (200, 0o6),
   (300, 0o7), (600, 0o10), (1200, 0o11), (1800, 0o12), (2400, 0o13),
   (4800, 0o14), (9600, 0o15), (19200, 0o16), (38400, 0o17),
   (57600, 0x1001), (115200, 0x1002), (230400, 0x1003), (460800, 0x1004),
   (500000, 0x1005), (576000, 0x1006), (921600, 0x1007), (1000000, 0x1008),
   (1152000, 0x1009), (1500000, 0x100a), (2000000, 0x100b), (2500000, 0x100c),
   (3000000, 0x100d), (3500000, 0x100e), (4000000, 0x100f)]

/-- Modelled from the spec: the character-size table (`charSizes`) is in a
repository file not present under `src/` ("map data bits 5-8 to the
character-size field"). -/
def charSizes : List (Nat × Nat) :=
  [(5, CS5), (6, CS6), (7, CS7), (8, CS8)]

/-- Serial parity mode; the Go `ParityMode` is a plain `int`, so it is
modelled as `Nat` with the five named values 0..4 (none/odd/even/mark/space)
and every other value unsupported. -/
def PARITY_NONE : Nat := 0
def PARITY_ODD : Nat := 1
def PARITY_EVEN : Nat := 2
def PARITY_MARK : Nat := 3
def PARITY_SPACE : Nat := 4

/-- Shallow model of `SerialConfig` (fields consumed by the embedded code;
the device path only feeds error messages and is omitted). -/
structure SerialConfig where
  baudRate : Nat
  dataBits : Nat
  stopBits : Nat
  parity : Nat
  readTimeout : Int
  writeTimeout : Int
  rs485Enabled : Bool
deriving DecidableEq, Repr

inductive TermiosErr where
  | unsupportedBaud
  | unsupportedCharSize
  | unsupportedStopBits
  | unsupportedParity
deriving DecidableEq, Repr

/-- The parity switch of `newTermios`, followed by forcing `CREAD | CLOCAL`
on (the tail of the Go function). -/
def newTermiosParity (c : SerialConfig) (t : Termios) : Except TermiosErr Termios :=
  let done := fun (t : Termios) =>
    Except.ok { t with cflag := t.cflag ||| (CREAD ||| CLOCAL) }
  if c.parity = PARITY_NONE then
    done { t with cflag := andNot t.cflag PARENB, iflag := andNot t.iflag INPCK }
  else if c.parity = PARITY_ODD then
    done { t with cflag := andNot (t.cflag ||| PARENB ||| PARODD) CMSPAR,
                  iflag := t.iflag ||| INPCK }
  else if c.parity = PARITY_EVEN then
    done { t with cflag := andNot (andNot (t.cflag ||| PARENB) PARODD) CMSPAR,
                  iflag := t.iflag ||| INPCK }
  else if c.parity = PARITY_MARK then
    done { t with cflag := t.cflag ||| PARENB ||| PARODD ||| CMSPAR,
                  iflag := t.iflag ||| INPCK }
  else if c.parity = PARITY_SPACE then
    done { t with cflag := andNot (t.cflag ||| PARENB) PARODD ||| CMSPAR,
                  iflag := t.iflag ||| INPCK }
  else
    Except.error TermiosErr.unsupportedParity

/-- Shallow embedding of `newTermios` (`src/unnamed/part_001`, lines 300-379):
baud-rate lookup, input/output speed, character size, stop bits, parity. -/
def newTermios (c : SerialConfig) : Except TermiosErr Termios :=
  match lookupTbl baudRates c.baudRate with
  | none => Except.error TermiosErr.unsupportedBaud
  | some bflag =>
    match lookupTbl charSizes c.dataBits with
    | none => Except.error TermiosErr.unsupportedCharSize
    | some csz =>
      let cflag := andNot (0 ||| bflag) CSIZE ||| csz
      if c.stopBits = 0 ∨ c.stopBits = 1 then
        newTermiosParity c
          { cflag := andNot cflag CSTOPB, iflag := 0, ispeed := bflag, ospeed := bflag }
      else if c.stopBits = 2 then
        newTermiosParity c
          { cflag := cflag ||| CSTOPB, iflag := 0, ispeed := bflag, ospeed := bflag }
      else
        Except.error TermiosErr.unsupportedStopBits

/-! ## Serial Read (`src/unnamed/part_001`, lines 125-172)

The loop is driven by syscall outcomes supplied by the environment as a trace:
a loop iteration either observes that the deadline has passed, or performs a
`select` (which can be interrupted, fail, expire, or report readiness) and,
when ready, a `read` (which can be interrupted, fail, or deliver `n` bytes).
-/

inductive SelectResult where
  | ok (ready : Bool)
  | eintr
  | fail
deriving DecidableEq, Repr

inductive ReadSysResult where
  | ok (n : Nat)
  | eintr
  | fail
deriving DecidableEq, Repr

inductive ReadEvent where
  | timeExpired
  | step (sel : SelectResult) (rd : ReadSysResult)
deriving DecidableEq, Repr

inductive SerialErr where
  | timeout
  | selectFail
  | readFail
  | readNoData
  | writeFail
  | overflow
deriving DecidableEq, Repr

/-- The serial `Read` loop: state is the accumulated byte count `readLen` and
the `hasData` flag; the result is `none` when the event trace is exhausted
before the loop returns. -/
def serialReadLoop : List ReadEvent → Nat → Bool → Option (Except SerialErr Nat)
  | [], _, _ => none
  | ReadEvent.timeExpired :: _, _, _ => some (Except.error SerialErr.timeout)
  | ReadEvent.step sel rd :: evs, readLen, hasData =>
    match sel with
    | SelectResult.eintr => serialReadLoop evs readLen hasData
    | SelectResult.fail => some (Except.error SerialErr.selectFail)
    | SelectResult.ok ready =>
      if !ready then
        if hasData then some (Except.ok readLen)
        else some (Except.error SerialErr.timeout)
      else
        match rd with
        | ReadSysResult.eintr => serialReadLoop evs readLen hasData
        | ReadSysResult.fail => some (Except.error SerialErr.readFail)
        | ReadSysResult.ok n =>
          if 0 < n then serialReadLoop evs (readLen + n) true
          else some (Except.error SerialErr.readNoData)

/-- A full `Read` call starts with zero accumulated bytes. -/
def serialRead (evs : List ReadEvent) : Option (Except SerialErr Nat) :=
  serialReadLoop evs 0 false

/-- Events on which the read loop continues without returning: an interrupted
select, an interrupted read, or a read delivering at least one byte. -/
def readProgress : ReadEvent → Bool
  | ReadEvent.step SelectResult.eintr _ => true
  | ReadEvent.step (SelectResult.ok true) ReadSysResult.eintr => true
  | ReadEvent.step (SelectResult.ok true) (ReadSysResult.ok n) => 0 < n
  | _ => false

/-- Bytes delivered by one event. -/
def readGain : ReadEvent → Nat
  | ReadEvent.step (SelectResult.ok true) (ReadSysResult.ok n) => n
  | _ => 0

/-- Total bytes delivered along a trace prefix. -/
def readGainSum (evs : List ReadEvent) : Nat := (evs.map readGain).sum

/-! ## Serial Write (`src/unnamed/part_001`, lines 175-222)

Each outer-loop round is one `syscall.Write` attempt followed, when the buffer
is not yet drained, by the inner readiness-wait loop.  A round is modelled as
the write outcome plus the trace of inner wait events. -/

inductive WriteSysResult where
  | ok (n : Nat)
  | eintr (n : Nat)
  | fail
deriving DecidableEq, Repr

inductive WaitEvent where
  | deadline
  | sel (s : SelectResult)
deriving DecidableEq, Repr

/-- The inner wait loop of serial `Write`: deadline passed or an expired /
non-ready select is a timeout; an interrupted select retries; a ready select
breaks back to the outer loop (`Except.ok`). -/
def writeWait : List WaitEvent → Option (Except SerialErr Unit)
  | [] => none
  | WaitEvent.deadline :: _ => some (Except.error SerialErr.timeout)
  | WaitEvent.sel SelectResult.eintr :: ws => writeWait ws
  | WaitEvent.sel SelectResult.fail :: _ => some (Except.error SerialErr.selectFail)
  | WaitEvent.sel (SelectResult.ok false) :: _ => some (Except.error SerialErr.timeout)
  | WaitEvent.sel (SelectResult.ok true) :: _ => some (Except.ok ())

/-- The reported count of a write outcome treated as progress by the source
(both success and interruption advance the cursor by the reported count). -/
def writeCount : WriteSysResult → Option Nat
  | WriteSysResult.ok n => some n
  | WriteSysResult.eintr n => some n
  | WriteSysResult.fail => none

/-- The serial `Write` loop over rounds, carrying the cumulative written
length `writeLen` against the buffer length `bLen`. -/
def serialWriteLoop : List (WriteSysResult × List WaitEvent) → Nat → Nat →
    Option (Except SerialErr Nat)
  | [], _, _ => none
  | (w, waits) :: rounds, writeLen, bLen =>
    match writeCount w with
    | none => some (Except.error SerialErr.writeFail)
    | some n =>
      let wl := writeLen + n
      if wl = bLen then some (Except.ok wl)
      else if bLen < wl then some (Except.error SerialErr.overflow)
      else
        match writeWait waits with
        | none => none
        | some (Except.error e) => some (Except.error e)
        | some (Except.ok _) => serialWriteLoop rounds wl bLen

/-- A full `Write` call starts with zero written bytes. -/
def serialWrite (rounds : List (WriteSysResult × List WaitEvent)) (bLen : Nat) :
    Option (Except SerialErr Nat) :=
  serialWriteLoop rounds 0 bLen

/-! ## Serial Open / Close (`src/unnamed/part_001`, lines 50-122)

The mutable endpoint state is the descriptor (sentinel `-1`) and the retained
backup of the previous terminal attributes; `Open` is driven by the trace of
outcomes of the device-open syscall plus environment flags for the
`tcgetattr`/`tcsetattr`/RS-485-ioctl syscalls. -/

structure SerialState where
  fd : Int
  oldTermios : Option Termios
  readTimeout : Int
  writeTimeout : Int
deriving DecidableEq, Repr

/-- The state of a freshly constructed serial endpoint (`newSerial`). -/
def newSerialState : SerialState :=
  { fd := -1, oldTermios := none, readTimeout := 0, writeTimeout := 0 }

inductive OpenSysResult where
  | ok (fd : Int)
  | eintr
  | tooManyFiles
  | fail
deriving DecidableEq, Repr

inductive SerialOpenErr where
  | eintrSurfaced
  | tooManyFiles
  | openFail
  | configErr (e : TermiosErr)
  | setAttrFail
  | rs485Fail
deriving DecidableEq, Repr

inductive CloseErr where
  | closeFail
deriving DecidableEq, Repr

/-- Serial `Close`: a sentinel descriptor is a no-op returning success;
otherwise restore the backed-up attributes (best effort), close the
descriptor, and clear both fields regardless of the close syscall's outcome
`closeOk`, which the function returns as its error (`err = syscall.Close(p.fd)`).
The second component lists the descriptors passed to the close syscall. -/
def serialClose (closeOk : Bool) (st : SerialState) :
    SerialState × List Int × Option CloseErr :=
  if st.fd = -1 then (st, [], none)
  else ({ st with fd := -1, oldTermios := none }, [st.fd],
    if closeOk then none else some CloseErr.closeFail)

/-- Record the configured read/write timeouts with their defaults
(5000 ms read, 1000 ms write). -/
def serialSetTimeouts (c : SerialConfig) (st : SerialState) : SerialState :=
  { st with
    readTimeout := if 0 < c.readTimeout then c.readTimeout else 5000,
    writeTimeout := if 0 < c.writeTimeout then c.writeTimeout else 1000 }

/-- Shallow embedding of serial `Open`.  `prevAttrs` is the device's current
terminal state as read by `tcgetattr`; `backupOk`, `setOk`, `rs485Ok` are the
outcomes of the backup, apply, and RS-485 ioctl syscalls; `opens` is the trace
of device-open syscall outcomes (consumed one per attempt).  Returns the final
endpoint state, the surfaced error, and the descriptors closed during the
call; `none` when the open-outcome trace is exhausted.

The interrupted-open branch mirrors the source exactly: the retry `p.Open(config)`
is invoked on the same state but its returned error is discarded, and the
pending interrupted-call error is what the outer call returns. -/
def serialOpenAux (c : SerialConfig) (prevAttrs : Termios)
    (backupOk setOk rs485Ok : Bool) :
    List OpenSysResult → SerialState → Option (SerialState × Option SerialOpenErr × List Int)
  | [], _ => none
  | OpenSysResult.eintr :: rest, st =>
    match serialOpenAux c prevAttrs backupOk setOk rs485Ok rest { st with fd := -1 } with
    | none => none
    | some (st2, _, closes) => some (st2, some SerialOpenErr.eintrSurfaced, closes)
  | OpenSysResult.tooManyFiles :: _, st =>
    some ({ st with fd := -1 }, some SerialOpenErr.tooManyFiles, [])
  | OpenSysResult.fail :: _, st =>
    some ({ st with fd := -1 }, some SerialOpenErr.openFail, [])
  | OpenSysResult.ok fd :: _, st =>
    let st1 := { st with fd := fd }
    match newTermios c with
    | Except.error e => some (st1, some (SerialOpenErr.configErr e), [])
    | Except.ok _ =>
      let st2 := if backupOk then { st1 with oldTermios := some prevAttrs } else st1
      if setOk then
        if c.rs485Enabled then
          if rs485Ok then some (serialSetTimeouts c st2, none, [])
          else
            -- `p.Close()` whose returned error `Open` discards: its close
            -- syscall outcome is unobservable here, so it is fixed to true.
            let (st3, closes, _) := serialClose true st2
            some (st3, some SerialOpenErr.rs485Fail, closes)
        else some (serialSetTimeouts c st2, none, [])
      else some ({ st2 with fd := -1, oldTermios := none }, some SerialOpenErr.setAttrFail, [fd])

/-- A full serial `Open` starting from a freshly constructed endpoint. -/
def serialOpen (c : SerialConfig) (prevAttrs : Termios)
    (backupOk setOk rs485Ok : Bool) (opens : List OpenSysResult) :
    Option (SerialState × Option SerialOpenErr × List Int) :=
  serialOpenAux c prevAttrs backupOk setOk rs485Ok opens newSerialState

/-! ## TCP transport (`src/unnamed/part_000`, lines 317-450: the variant that
closes the descriptor on each failure path and records timeouts)

`setKeepAlive` is `src/tcpopt_unix.go`, lines 12-24: a non-positive duration
is rejected outright, then three `setsockopt` calls are issued. -/

inductive KeepAliveErr where
  | invalidDuration
  | sockoptFail
deriving DecidableEq, Repr

/-- Shallow embedding of `setKeepAlive`: `d` is the keep-alive duration, the
three booleans are the outcomes of the `SO_KEEPALIVE`, `TCP_KEEPINTVL`, and
`TCP_KEEPIDLE` setsockopt syscalls. -/
def setKeepAlive (d : Int) (ka1 ka2 ka3 : Bool) : Option KeepAliveErr :=
  if d ≤ 0 then some KeepAliveErr.invalidDuration
  else if !ka1 then some KeepAliveErr.sockoptFail
  else if !ka2 then some KeepAliveErr.sockoptFail
  else if !ka3 then some KeepAliveErr.sockoptFail
  else none

structure TcpState where
  fd : Int
  readTimeout : Int
  writeTimeout : Int
deriving DecidableEq, Repr

/-- The state of a freshly constructed TCP endpoint (`newTCP`). -/
def newTcpState : TcpState := { fd := -1, readTimeout := 0, writeTimeout := 0 }

inductive TcpOpenErr where
  | resolveErr
  | socketErr
  | noDelayErr
  | keepAliveErr (e : KeepAliveErr)
  | connectErr
  | nonblockErr
deriving DecidableEq, Repr

/-- Syscall outcomes consumed by TCP `Open`. -/
structure TcpEnv where
  resolveOk : Bool
  socketFd : Option Int
  noDelayOk : Bool
  ka1 : Bool
  ka2 : Bool
  ka3 : Bool
  connectOk : Bool
  nonblockOk : Bool
deriving DecidableEq, Repr

/-- TCP configuration fields consumed by the embedded `Open`. -/
structure TcpConfigM where
  keepAlive : Int
  readTimeout : Int
  writeTimeout : Int
deriving DecidableEq, Repr

/-- Shallow embedding of TCP `Open` (the timeout-aware variant): resolve,
create socket, set no-delay and keep-alive, connect, set non-blocking, record
timeouts.  Each post-socket failure closes the just-created descriptor (listed
in the third component) but leaves the `fd` field as is. -/
def tcpOpen (c : TcpConfigM) (env : TcpEnv) (st : TcpState) :
    TcpState × Option TcpOpenErr × List Int :=
  if !env.resolveOk then (st, some TcpOpenErr.resolveErr, [])
  else
    match env.socketFd with
    | none => ({ st with fd := -1 }, some TcpOpenErr.socketErr, [])
    | some fd =>
      let st1 := { st with fd := fd }
      if !env.noDelayOk then (st1, some TcpOpenErr.noDelayErr, [fd])
      else
        match setKeepAlive c.keepAlive env.ka1 env.ka2 env.ka3 with
        | some e => (st1, some (TcpOpenErr.keepAliveErr e), [fd])
        | none =>
          if !env.connectOk then (st1, some TcpOpenErr.connectErr, [fd])
          else if !env.nonblockOk then (st1, some TcpOpenErr.nonblockErr, [fd])
          else
            ({ st1 with
                readTimeout := if 0 < c.readTimeout then c.readTimeout else st1.readTimeout,
                writeTimeout := if 0 < c.writeTimeout then c.writeTimeout else st1.writeTimeout },
              none, [])

/-- TCP `Close` (`src/unnamed/part_000`, lines 404-410): closes the descriptor
when it is not the sentinel but never resets the field, and always returns
success.  The second component lists the descriptors passed to the close
syscall. -/
def tcpClose (fd : Int) : Int × List Int :=
  if fd ≠ -1 then (fd, [fd]) else (fd, [])

/-- UDP `Close` (`src/udp.go`, lines 61-67): identical shape to TCP. -/
def udpClose (fd : Int) : Int × List Int :=
  if fd ≠ -1 then (fd, [fd]) else (fd, [])

/-- Unix-socket `Close` (`src/tcpopt_unix.go`, lines 81-87): identical shape. -/
def unixClose (fd : Int) : Int × List Int :=
  if fd ≠ -1 then (fd, [fd]) else (fd, [])

/-! ## UDP Write (`src/udp.go`, lines 76-78) -/

inductive SendErr where
  | sendFail
deriving DecidableEq, Repr

/-- Shallow embedding of UDP `Write`: `return len(b), syscall.Sendto(...)`.
The second argument is the outcome of the `sendto` syscall. -/
def udpWrite (b : List Nat) (sendResult : Option SendErr) : Nat × Option SendErr :=
  (b.length, sendResult)

/-! ## Unix-socket `SockAddr` (`src/tcpopt_unix.go`, lines 115-117)

The accessor's body is `return p.SockAddr()`: a self-call on the same
receiver.  It is modelled fuel-indexed; `none` means the computation has not
produced a value within the given recursion budget. -/

def unixSockAddr (storedSockAddr : Int) : Nat → Option Int
  | 0 => none
  | fuel + 1 => unixSockAddr storedSockAddr fuel

/-! ## Connection registry (`src/unnamed/part_003`, lines 40-78)

The `sync.Map` keyed by address name is modelled as an association list; the
registry-aware `Open` takes the endpoint type, the address name, and the
outcome of the transport's native open. -/

inductive EndPointType where
  | tcp
  | unix
  | udp
  | serial
deriving DecidableEq, Repr

/-- An opened endpoint as stored in the registry: its type plus an identity
tag distinguishing distinct opens. -/
structure Ep where
  ty : EndPointType
  id : Nat
deriving DecidableEq, Repr

def Registry : Type := List (String × List Ep)

/-- `sync.Map.Load`. -/
def regLoad : Registry → String → Option (List Ep)
  | [], _ => none
  | (k, v) :: rest, name => if k = name then some v else regLoad rest name

/-- `sync.Map.Store`: replace the entry for the key, or append a new one. -/
def regStore : Registry → String → List Ep → Registry
  | [], name, v => [(name, v)]
  | (k, w) :: rest, name, v =>
    if k = name then (name, v) :: rest else (k, w) :: regStore rest name v

inductive RegErr where
  | duplicateSerial
  | openFail
deriving DecidableEq, Repr

/-- Shallow embedding of the registry-aware `Open`: for a serial config an
existing entry at the address name fails with the duplicate error before the
native open runs; otherwise the native open runs and, on success, the endpoint
is stored (serial: a fresh singleton list; network: appended to any existing
list).  Returns the new registry, the error, and whether the transport's
native open was invoked. -/
def regOpen (ty : EndPointType) (name : String) (nativeOk : Bool) (id : Nat)
    (m : Registry) : Registry × Option RegErr × Bool :=
  if ty = EndPointType.serial then
    match regLoad m name with
    | some _ => (m, some RegErr.duplicateSerial, false)
    | none =>
      if nativeOk then (regStore m name [{ ty := ty, id := id }], none, true)
      else (m, some RegErr.openFail, true)
  else
    if nativeOk then
      match regLoad m name with
      | some s => (regStore m name (s ++ [{ ty := ty, id := id }]), none, true)
      | none => (regStore m name [{ ty := ty, id := id }], none, true)
    else (m, some RegErr.openFail, true)

/-- Shallow embedding of `Find`: the stored list plus a found flag. -/
def regFind (m : Registry) (name : String) : List Ep × Bool :=
  match regLoad m name with
  | some s => (s, true)
  | none => ([], false)

/-- One registry-aware open request, as issued by a caller. -/
structure RegOp where
  ty : EndPointType
  name : String
  nativeOk : Bool
  id : Nat
deriving DecidableEq, Repr

/-- Apply a sequence of registry-aware opens, threading the registry. -/
def regOpenAll (ops : List RegOp) (m : Registry) : Registry :=
  ops.foldl (fun acc op => (regOpen op.ty op.name op.nativeOk op.id acc).1) m

/-- Check that a terminal-attribute result is a success whose input and output
speeds equal the looked-up rate flag and whose control flags include the
receiver-enable and ignore-modem-control-lines bits. -/
def termiosSpeedAndControlOk (flag : Nat) (r : Except TermiosErr Termios) : Bool :=
  match r with
  | Except.ok t =>
    t.ispeed == flag && t.ospeed == flag &&
      t.cflag &&& CREAD == CREAD && t.cflag &&& CLOCAL == CLOCAL
  | Except.error _ => false

/-! ## Theorems -/

/-- Claim C10: for every Unix-domain socket endpoint, the socket-address
accessor `SockAddr` terminates and returns the stored low-level socket
address field.  The code (`return p.SockAddr()`) instead recurses forever:
for every recursion budget the accessor produces no value at all, so in
particular it never returns the stored field.  This refutes the claim's
termination statement and exhibits the divergence the spec itself flags as a
defect. -/
theorem unix_sockaddr_never_returns_stored_field :
    ∀ (storedSockAddr : Int) (fuel : Nat), unixSockAddr storedSockAddr fuel = none := by
  intro sa fuel
  induction fuel with
  | zero => rfl
  | succ n ih => simpa [unixSockAddr] using ih

/-- Claim C8: a zero keep-alive duration is supposed to be a valid, supported
configuration that disables keep-alive without failing `Open`.  Evaluating the
code: `setKeepAlive` rejects duration `0` as an invalid duration, and TCP
`Open` (here with every other syscall succeeding and socket descriptor 7)
propagates that failure, closing the socket and failing the whole open.  This
contradicts the claim, exhibiting the code bug. -/
theorem tcp_open_fails_on_zero_keepalive :
    setKeepAlive 0 true true true = some KeepAliveErr.invalidDuration ∧
    tcpOpen { keepAlive := 0, readTimeout := 0, writeTimeout := 0 }
        { resolveOk := true, socketFd := some 7, noDelayOk := true,
          ka1 := true, ka2 := true, ka3 := true, connectOk := true, nonblockOk := true }
        newTcpState
      = ({ fd := 7, readTimeout := 0, writeTimeout := 0 },
          some (TcpOpenErr.keepAliveErr KeepAliveErr.invalidDuration), [7]) := by
  exact ⟨rfl, rfl⟩

/-- Claim C9: an interrupted device-open syscall during serial `Open` is
retried in place and the interrupted-call error is never surfaced; the call's
result should be that of the retried attempt.  Evaluating the code on the
trace [interrupted, success on descriptor 3] with a supported 9600-8-1-none
configuration: the retry does run and fully opens the endpoint (descriptor 3,
attributes backed up, default timeouts recorded), but the retried attempt's
result is discarded and the original interrupted-call error is returned to
the caller.  This contradicts the claim, exhibiting the code bug. -/
theorem serial_open_eintr_surfaced_despite_retry :
    serialOpen
        { baudRate := 9600, dataBits := 8, stopBits := 1, parity := 0,
          readTimeout := 0, writeTimeout := 0, rs485Enabled := false }
        { cflag := 0, iflag := 0, ispeed := 0, ospeed := 0 } true true true
        [OpenSysResult.eintr, OpenSysResult.ok 3]
      = some
          ({ fd := 3, oldTermios := some { cflag := 0, iflag := 0, ispeed := 0, ospeed := 0 },
             readTimeout := 5000, writeTimeout := 1000 },
            some SerialOpenErr.eintrSurfaced, []) := by
  rfl

/-- Claim C4: every serial `Open` failure after the device has been opened is
supposed to release the device descriptor before the error is surfaced.
Evaluating the code on a configuration with the unsupported baud rate 12345
and a device open that succeeds with descriptor 3: `Open` fails with the
unsupported-baud configuration error, but no descriptor is closed (the close
list is empty) and the endpoint still holds descriptor 3 rather than the
unopened sentinel -1.  This contradicts the claim, exhibiting the code bug on
the terminal-attribute-construction failure path. -/
theorem serial_open_unsupported_baud_leaks_descriptor :
    serialOpen
        { baudRate := 12345, dataBits := 8, stopBits := 1, parity := 0,
          readTimeout := 0, writeTimeout := 0, rs485Enabled := false }
        { cflag := 0, iflag := 0, ispeed := 0, ospeed := 0 } true true true
        [OpenSysResult.ok 3]
      = some
          ({ fd := 3, oldTermios := none, readTimeout := 0, writeTimeout := 0 },
            some (SerialOpenErr.configErr TermiosErr.unsupportedBaud), []) := by
  rfl

/-- Claim C3 counterexample: the claim asserts UDP `Write` never returns the
full requested count together with a failure of the underlying send.  On the
one-byte buffer `[42]` with a failing send, `Write` returns exactly the pair
(count 1 = the requested length, send failure), so the claim as stated is
false. -/
theorem udp_write_full_count_with_send_failure :
    (udpWrite [42] (some SendErr.sendFail)).1 = ([42] : List Nat).length ∧
    (udpWrite [42] (some SendErr.sendFail)).2 = some SendErr.sendFail := by
  exact ⟨rfl, rfl⟩

/-- Claim C3, amended: UDP `Write` always reports a count equal to the
requested length — even when the underlying send fails — and propagates the
send outcome unchanged, so the operation fails exactly when the underlying
send fails and the count is meaningful only on success. -/
theorem udp_write_reports_length_and_propagates_error :
    ∀ (b : List Nat) (sendResult : Option SendErr),
      udpWrite b sendResult = (b.length, sendResult) := by
  intro b r
  rfl

/-- Claim C5 counterexample: the claim asserts that for every endpoint the
first `Close` clears the descriptor to the unopened sentinel and a second
`Close` is a no-op.  For the TCP transport with open descriptor 5: the first
`Close` leaves the descriptor field at 5 (not the sentinel -1), and the
second `Close` issues the close syscall again on the very same descriptor
instead of being a no-op, so the claim as stated is false. -/
theorem tcp_close_keeps_descriptor_and_recloses :
    tcpClose 5 = (5, [5]) ∧
    tcpClose (tcpClose 5).1 = (5, [5]) := by
  exact ⟨rfl, rfl⟩

/-- Claim C5, amended: only the serial transport is fully idempotent — its
first `Close` releases the descriptor, clears both the descriptor (to the
sentinel -1) and the saved terminal attributes, and returns the close
syscall's outcome as its result; a second `Close` is a no-op returning
success, performing no syscall.  The TCP, UDP, and Unix transports always
return success and release the descriptor when it is not the sentinel, but
leave the descriptor field unchanged, so a second `Close` issues the release
syscall again on the stale descriptor and post-`Close` I/O would reuse it. -/
theorem close_semantics_per_transport :
    (∀ (closeOk : Bool) (st : SerialState), st.fd ≠ -1 →
      serialClose closeOk st
        = ({ st with fd := -1, oldTermios := none }, [st.fd],
            if closeOk then none else some CloseErr.closeFail)) ∧
    (∀ (closeOk : Bool) (st : SerialState), st.fd = -1 →
      serialClose closeOk st = (st, [], none)) ∧
    (∀ (ok1 ok2 : Bool) (st : SerialState),
      serialClose ok2 (serialClose ok1 st).1 = ((serialClose ok1 st).1, [], none)) ∧
    (∀ fd : Int, tcpClose fd = (fd, if fd = -1 then [] else [fd])) ∧
    (∀ fd : Int, udpClose fd = (fd, if fd = -1 then [] else [fd])) ∧
    (∀ fd : Int, unixClose fd = (fd, if fd = -1 then [] else [fd])) := by
  refine ⟨?_, ?_, ?_, ?_, ?_, ?_⟩
  · intro closeOk st h
    simp [serialClose, h]
  · intro closeOk st h
    simp [serialClose, h]
  · intro ok1 ok2 st
    by_cases h : st.fd = -1 <;> simp [serialClose, h]
  · intro fd
    by_cases h : fd = -1 <;> simp [tcpClose, h]
  · intro fd
    by_cases h : fd = -1 <;> simp [udpClose, h]
  · intro fd
    by_cases h : fd = -1 <;> simp [unixClose, h]

/-- Concrete instantiation of the amended C5 theorem: a serial endpoint open
on descriptor 5 is closed (clearing to the sentinel) returning the close
syscall's outcome — success when it succeeds, the error when it fails — and
an already-closed serial endpoint is untouched, returning success. -/
theorem close_semantics_per_transport_witness :
    serialClose true
        { fd := 5, oldTermios := some { cflag := 0, iflag := 0, ispeed := 0, ospeed := 0 },
          readTimeout := 1, writeTimeout := 1 }
      = ({ fd := -1, oldTermios := none, readTimeout := 1, writeTimeout := 1 }, [5], none) ∧
    serialClose false
        { fd := 5, oldTermios := some { cflag := 0, iflag := 0, ispeed := 0, ospeed := 0 },
          readTimeout := 1, writeTimeout := 1 }
      = ({ fd := -1, oldTermios := none, readTimeout := 1, writeTimeout := 1 }, [5],
          some CloseErr.closeFail) ∧
    serialClose true { fd := -1, oldTermios := none, readTimeout := 0, writeTimeout := 0 }
      = ({ fd := -1, oldTermios := none, readTimeout := 0, writeTimeout := 0 }, [], none) := by
  refine ⟨?_, ?_, ?_⟩
  · simpa using close_semantics_per_transport.1 true
      { fd := 5, oldTermios := some { cflag := 0, iflag := 0, ispeed := 0, ospeed := 0 },
        readTimeout := 1, writeTimeout := 1 } (by decide)
  · simpa using close_semantics_per_transport.1 false
      { fd := 5, oldTermios := some { cflag := 0, iflag := 0, ispeed := 0, ospeed := 0 },
        readTimeout := 1, writeTimeout := 1 } (by decide)
  · exact close_semantics_per_transport.2.1 true
      { fd := -1, oldTermios := none, readTimeout := 0, writeTimeout := 0 } (by decide)

/-- Claim C2: serial `Write` drains the buffer round by round; in the round
in which the cumulative written length reaches the buffer length it returns
success with the total count, in any round in which the cumulative length
exceeds the buffer length it returns the internal overflow error, and
consequently a successful `Write` never reports a count different from the
requested length. -/
theorem serial_write_drain_and_overflow :
    (∀ (w : WriteSysResult) (n : Nat) (waits : List WaitEvent)
        (rounds : List (WriteSysResult × List WaitEvent)) (writeLen bLen : Nat),
      writeCount w = some n → writeLen + n = bLen →
      serialWriteLoop ((w, waits) :: rounds) writeLen bLen = some (Except.ok bLen)) ∧
    (∀ (w : WriteSysResult) (n : Nat) (waits : List WaitEvent)
        (rounds : List (WriteSysResult × List WaitEvent)) (writeLen bLen : Nat),
      writeCount w = some n → bLen < writeLen + n →
      serialWriteLoop ((w, waits) :: rounds) writeLen bLen
        = some (Except.error SerialErr.overflow)) ∧
    (∀ (rounds : List (WriteSysResult × List WaitEvent)) (bLen k : Nat),
      serialWrite rounds bLen = some (Except.ok k) → k = bLen) := by
  refine ⟨?_, ?_, ?_⟩
  · intro w n waits rounds writeLen bLen hw heq
    simp [serialWriteLoop, hw, heq]
  · intro w n waits rounds writeLen bLen hw hlt
    have hne : ¬ writeLen + n = bLen := by omega
    simp [serialWriteLoop, hw, hne, hlt]
  · intro rounds bLen k h
    unfold serialWrite at h
    generalize hstart : (0 : Nat) = writeLen at h
    clear hstart
    induction rounds generalizing writeLen with
    | nil => simp [serialWriteLoop] at h
    | cons r rounds ih =>
      obtain ⟨w, waits⟩ := r
      unfold serialWriteLoop at h
      cases hw : writeCount w with
      | none => rw [hw] at h; simp at h
      | some n =>
        rw [hw] at h
        by_cases h1 : writeLen + n = bLen
        · simp [h1] at h
          omega
        · simp [h1] at h
          by_cases h2 : bLen < writeLen + n
          · simp [h2] at h
          · simp [h2] at h
            cases hww : writeWait waits with
            | none => rw [hww] at h; simp at h
            | some r2 =>
              rw [hww] at h
              cases r2 with
              | error e => simp at h
              | ok u => exact ih (writeLen + n) h

/-- Concrete instantiation of the C2 theorem: a write of 5 bytes completed in
two rounds (2 bytes, then 3) returns success 5; a round reporting 7 bytes
against a 5-byte buffer is the overflow error. -/
theorem serial_write_drain_and_overflow_witness :
    serialWriteLoop [(WriteSysResult.ok 3, [])] 2 5 = some (Except.ok 5) ∧
    serialWriteLoop [(WriteSysResult.ok 7, [])] 0 5
      = some (Except.error SerialErr.overflow) ∧
    (3 : Nat) = 3 := by
  refine ⟨serial_write_drain_and_overflow.1 (WriteSysResult.ok 3) 3 [] [] 2 5 rfl (by decide),
    serial_write_drain_and_overflow.2.1 (WriteSysResult.ok 7) 7 [] [] 0 5 rfl (by decide),
    serial_write_drain_and_overflow.2.2 [(WriteSysResult.ok 3, [])] 3 3 rfl⟩

/-- Along a prefix of progress events (interrupted selects, interrupted reads,
reads delivering at least one byte) the read loop neither returns nor fails:
it accumulates the delivered bytes and records whether any byte arrived. -/
theorem serialReadLoop_progress (pre rest : List ReadEvent) (len : Nat) (hd : Bool)
    (h : ∀ e ∈ pre, readProgress e = true) :
    serialReadLoop (pre ++ rest) len hd
      = serialReadLoop rest (len + readGainSum pre) (hd || decide (0 < readGainSum pre)) := by
  induction pre generalizing len hd with
  | nil => simp [readGainSum]
  | cons e pre ih =>
    have he : readProgress e = true := h e (List.mem_cons_self e pre)
    have hpre : ∀ x ∈ pre, readProgress x = true :=
      fun x hx => h x (List.mem_cons_of_mem e hx)
    cases e with
    | timeExpired => simp [readProgress] at he
    | step sel rd =>
      cases sel with
      | eintr =>
        rw [List.cons_append]
        show serialReadLoop (pre ++ rest) len hd = _
        rw [ih len hd hpre]
        simp [readGainSum, readGain]
      | fail => simp [readProgress] at he
      | ok ready =>
        cases ready with
        | false => simp [readProgress] at he
        | true =>
          cases rd with
          | eintr =>
            rw [List.cons_append]
            show serialReadLoop (pre ++ rest) len hd = _
            rw [ih len hd hpre]
            simp [readGainSum, readGain]
          | fail => simp [readProgress] at he
          | ok n =>
            have hn : 0 < n := by simpa [readProgress] using he
            rw [List.cons_append]
            show (if 0 < n then serialReadLoop (pre ++ rest) (len + n) true
                else some (Except.error SerialErr.readNoData)) = _
            rw [if_pos hn, ih (len + n) true hpre]
            have hsum : readGainSum (ReadEvent.step (SelectResult.ok true)
                (ReadSysResult.ok n) :: pre) = n + readGainSum pre := by
              simp [readGainSum, readGain]
            rw [hsum]
            have hpos : (0 < n + readGainSum pre) := by omega
            have harith : len + n + readGainSum pre = len + (n + readGainSum pre) := by omega
            simp [harith, hpos]

/-- Claim C1: serial `Read` follows the accumulate-until-timeout-or-full-or-idle
policy.  First conjunct: in any execution whose readiness wait reports no
readiness (an expired or not-ready select) after a prefix of progress events,
the call returns success with the bytes accumulated so far when at least one
byte has arrived, and fails with the timeout error when none has.  Second
conjunct: a deadline expiry before any byte has arrived is always the timeout
error. -/
theorem serial_read_idle_and_timeout_policy :
    (∀ (pre : List ReadEvent) (rd : ReadSysResult) (evs : List ReadEvent),
      (∀ e ∈ pre, readProgress e = true) →
      serialRead (pre ++ ReadEvent.step (SelectResult.ok false) rd :: evs)
        = if 0 < readGainSum pre then some (Except.ok (readGainSum pre))
          else some (Except.error SerialErr.timeout)) ∧
    (∀ (pre : List ReadEvent) (evs : List ReadEvent),
      (∀ e ∈ pre, readProgress e = true) → readGainSum pre = 0 →
      serialRead (pre ++ ReadEvent.timeExpired :: evs)
        = some (Except.error SerialErr.timeout)) := by
  constructor
  · intro pre rd evs h
    unfold serialRead
    rw [serialReadLoop_progress pre _ 0 false h]
    by_cases hg : 0 < readGainSum pre <;> simp [serialReadLoop, hg]
  · intro pre evs h hg
    unfold serialRead
    rw [serialReadLoop_progress pre _ 0 false h]
    simp [serialReadLoop]

/-- Concrete instantiation of the C1 theorem: after one ready select that
delivers 3 bytes, an idle select returns success 3; an idle select with
nothing accumulated, and a deadline expiry with nothing accumulated, are both
the timeout error. -/
theorem serial_read_idle_and_timeout_policy_witness :
    serialRead ([ReadEvent.step (SelectResult.ok true) (ReadSysResult.ok 3)] ++
        ReadEvent.step (SelectResult.ok false) ReadSysResult.fail :: [])
      = some (Except.ok 3) ∧
    serialRead ([] ++ ReadEvent.step (SelectResult.ok false) ReadSysResult.fail :: [])
      = some (Except.error SerialErr.timeout) ∧
    serialRead ([] ++ ReadEvent.timeExpired :: [])
      = some (Except.error SerialErr.timeout) := by
  refine ⟨?_, ?_, ?_⟩
  · have h := serial_read_idle_and_timeout_policy.1
      [ReadEvent.step (SelectResult.ok true) (ReadSysResult.ok 3)] ReadSysResult.fail []
      (by decide)
    simpa [readGainSum, readGain] using h
  · have h := serial_read_idle_and_timeout_policy.1 [] ReadSysResult.fail [] (by decide)
    simpa [readGainSum] using h
  · exact serial_read_idle_and_timeout_policy.2 [] [] (by decide) (by decide)

/-- Storing under a key makes that key's entry the stored value. -/
theorem regLoad_regStore_self (m : Registry) (k : String) (v : List Ep) :
    regLoad (regStore m k v) k = some v := by
  induction m with
  | nil => simp [regStore, regLoad]
  | cons p rest ih =>
    obtain ⟨k1, w⟩ := p
    by_cases h : k1 = k <;> simp [regStore, regLoad, h, ih]

/-- Storing under one key leaves every other key's entry unchanged. -/
theorem regLoad_regStore_other (m : Registry) (k name : String) (v : List Ep)
    (h : k ≠ name) : regLoad (regStore m k v) name = regLoad m name := by
  induction m with
  | nil => simp [regStore, regLoad, h]
  | cons p rest ih =>
    obtain ⟨k1, w⟩ := p
    by_cases h1 : k1 = k
    · subst h1
      simp [regStore, regLoad, h]
    · simp [regStore, regLoad, h1, ih]

/-- One registry-aware open preserves the at-most-one invariant at `name`,
provided any open issued at `name` itself is of the serial type. -/
theorem regOpen_preserves_serial_unique (ty : EndPointType) (name' : String)
    (ok : Bool) (id : Nat) (m : Registry) (name : String)
    (hm : ∀ l, regLoad m name = some l → l.length ≤ 1)
    (hser : name' = name → ty = EndPointType.serial) :
    ∀ l, regLoad (regOpen ty name' ok id m).1 name = some l → l.length ≤ 1 := by
  intro l hl
  by_cases hn : name' = name
  · subst hn
    have hty : ty = EndPointType.serial := hser rfl
    subst hty
    unfold regOpen at hl
    simp at hl
    cases hload : regLoad m name' with
    | some s =>
      rw [hload] at hl
      simp at hl
      exact hm l hl
    | none =>
      rw [hload] at hl
      simp at hl
      by_cases hok : ok
      · rw [if_pos hok] at hl
        simp at hl
        rw [regLoad_regStore_self] at hl
        simp at hl
        subst hl
        simp
      · rw [if_neg hok] at hl
        simp at hl
        exact hm l hl
  · unfold regOpen at hl
    by_cases hty : ty = EndPointType.serial
    · simp [hty] at hl
      cases hload : regLoad m name' with
      | some s =>
        rw [hload] at hl
        simp at hl
        exact hm l hl
      | none =>
        rw [hload] at hl
        simp at hl
        by_cases hok : ok
        · rw [if_pos hok] at hl
          simp at hl
          rw [regLoad_regStore_other _ _ _ _ hn] at hl
          exact hm l hl
        · rw [if_neg hok] at hl
          simp at hl
          exact hm l hl
    · simp [hty] at hl
      by_cases hok : ok
      · rw [if_pos hok] at hl
        cases hload : regLoad m name' with
        | some s =>
          rw [hload] at hl
          simp at hl
          rw [regLoad_regStore_other _ _ _ _ hn] at hl
          exact hm l hl
        | none =>
          rw [hload] at hl
          simp at hl
          rw [regLoad_regStore_other _ _ _ _ hn] at hl
          exact hm l hl
      · rw [if_neg hok] at hl
        simp at hl
        exact hm l hl

/-- A sequence of registry-aware opens preserves the at-most-one invariant at
`name` when every open issued at `name` is of the serial type. -/
theorem regOpenAll_preserves_serial_unique (ops : List RegOp) (m : Registry)
    (name : String) (hm : ∀ l, regLoad m name = some l → l.length ≤ 1)
    (hops : ∀ op ∈ ops, op.name = name → op.ty = EndPointType.serial) :
    ∀ l, regLoad (regOpenAll ops m) name = some l → l.length ≤ 1 := by
  induction ops generalizing m with
  | nil => simpa [regOpenAll] using hm
  | cons op ops ih =>
    have hstep := regOpen_preserves_serial_unique op.ty op.name op.nativeOk op.id m name hm
      (hops op (List.mem_cons_self op ops))
    have hops2 : ∀ x ∈ ops, x.name = name → x.ty = EndPointType.serial :=
      fun x hx => hops x (List.mem_cons_of_mem op hx)
    simpa [regOpenAll] using ih (regOpen op.ty op.name op.nativeOk op.id m).1 hstep hops2

/-- Claim C6: registry invariant.  First conjunct: a registry-aware serial
open at an already-registered address name fails with the duplicate error,
leaves the registry unchanged, and never invokes the transport's native open.
Second conjunct: two network opens (any non-serial type) at the same address
name both succeed and both endpoints appear in a subsequent lookup for that
name.  Third conjunct: starting from the empty registry, if every open issued
at an address name is serial, the entry at that name always has length at
most 1. -/
theorem registry_serial_unique_and_network_shared :
    (∀ (m : Registry) (name : String) (ok : Bool) (id : Nat) (l : List Ep),
      regLoad m name = some l →
      regOpen EndPointType.serial name ok id m = (m, some RegErr.duplicateSerial, false)) ∧
    (∀ (m : Registry) (name : String) (id1 id2 : Nat) (ty : EndPointType),
      ty ≠ EndPointType.serial →
      (regOpen ty name true id1 m).2.1 = none ∧
      (regOpen ty name true id2 (regOpen ty name true id1 m).1).2.1 = none ∧
      ({ ty := ty, id := id1 } : Ep) ∈
        (regFind (regOpen ty name true id2 (regOpen ty name true id1 m).1).1 name).1 ∧
      ({ ty := ty, id := id2 } : Ep) ∈
        (regFind (regOpen ty name true id2 (regOpen ty name true id1 m).1).1 name).1 ∧
      (regFind (regOpen ty name true id2 (regOpen ty name true id1 m).1).1 name).2 = true) ∧
    (∀ (ops : List RegOp) (name : String),
      (∀ op ∈ ops, op.name = name → op.ty = EndPointType.serial) →
      ∀ l, regLoad (regOpenAll ops []) name = some l → l.length ≤ 1) := by
  refine ⟨?_, ?_, ?_⟩
  · intro m name ok id l hl
    simp [regOpen, hl]
  · intro m name id1 id2 ty hty
    cases hload : regLoad m name with
    | some s =>
      simp [regOpen, hty, hload, regLoad_regStore_self, regFind, List.mem_append]
    | none =>
      simp [regOpen, hty, hload, regLoad_regStore_self, regFind, List.mem_append]
  · intro ops name hops
    exact regOpenAll_preserves_serial_unique ops [] name (by simp [regLoad]) hops

/-- Concrete instantiation of the C6 theorem: a duplicate serial open at path
"p" fails without a native open; two TCP opens at "a" both succeed and both
appear in the lookup; a sequence of two serial opens at "p" leaves at most
one entry. -/
theorem registry_serial_unique_and_network_shared_witness :
    regOpen EndPointType.serial "p" true 1 [("p", [{ ty := EndPointType.serial, id := 0 }])]
      = ([("p", [{ ty := EndPointType.serial, id := 0 }])], some RegErr.duplicateSerial, false) ∧
    ({ ty := EndPointType.tcp, id := 2 } : Ep) ∈
      (regFind (regOpen EndPointType.tcp "a" true 2
        (regOpen EndPointType.tcp "a" true 1 ([] : Registry)).1).1 "a").1 ∧
    ([{ ty := EndPointType.serial, id := 0 }] : List Ep).length ≤ 1 := by
  refine ⟨?_, ?_, ?_⟩
  · exact registry_serial_unique_and_network_shared.1
      [("p", [{ ty := EndPointType.serial, id := 0 }])] "p" true 1
      [{ ty := EndPointType.serial, id := 0 }] rfl
  · exact (registry_serial_unique_and_network_shared.2.1 ([] : Registry) "a" 1 2
      EndPointType.tcp (by decide)).2.2.2.1
  · exact registry_serial_unique_and_network_shared.2.2
      [{ ty := EndPointType.serial, name := "p", nativeOk := true, id := 0 },
       { ty := EndPointType.serial, name := "p", nativeOk := true, id := 1 }] "p"
      (by decide) [{ ty := EndPointType.serial, id := 0 }] rfl

/-- `newTermios` reads only the baud-rate, data-bits, stop-bits, and parity
fields of the configuration. -/
theorem newTermios_config_irrel (r db sb par : Nat) (rt wt : Int) (rs : Bool) :
    newTermios
        { baudRate := r, dataBits := db, stopBits := sb, parity := par,
          readTimeout := rt, writeTimeout := wt, rs485Enabled := rs }
      = newTermios
          { baudRate := r, dataBits := db, stopBits := sb, parity := par,
            readTimeout := 0, writeTimeout := 0, rs485Enabled := false } := rfl

/-- Exhaustive check over the rate table and the supported data-bit,
stop-bit, and parity values: `newTermios` succeeds with input and output
speed equal to the looked-up rate flag and the receiver-enable and
ignore-modem-control-lines bits set. -/
theorem newTermios_supported_check :
    (baudRates.all fun p =>
      ([5, 6, 7, 8] : List Nat).all fun db =>
        ([0, 1, 2] : List Nat).all fun sb =>
          ([0, 1, 2, 3, 4] : List Nat).all fun par =>
            termiosSpeedAndControlOk p.2
              (newTermios
                { baudRate := p.1, dataBits := db, stopBits := sb, parity := par,
                  readTimeout := 0, writeTimeout := 0, rs485Enabled := false })) = true := by
  decide

/-- Claim C7: the terminal-attribute mapping is a total function over the
supported inputs — every baud rate in the rate table, data bits in
{5, 6, 7, 8}, stop bits in {0, 1, 2}, and parity in {none, odd, even, mark,
space} produce attributes whose input and output speed is the looked-up rate
flag and whose receiver-enable and ignore-modem-control-lines bits are forced
on (for any timeout and RS-485 settings, which the mapping ignores) — and
each unsupported baud rate, data-bit count, stop-bit count, or parity mode
taken alone produces the corresponding configuration error. -/
theorem newTermios_supported_total_unsupported_rejected :
    (∀ (r flag : Nat), (r, flag) ∈ baudRates →
      ∀ db ∈ ([5, 6, 7, 8] : List Nat), ∀ sb ∈ ([0, 1, 2] : List Nat),
      ∀ par ∈ ([0, 1, 2, 3, 4] : List Nat), ∀ (rt wt : Int) (rs : Bool),
      ∃ t, newTermios
          { baudRate := r, dataBits := db, stopBits := sb, parity := par,
            readTimeout := rt, writeTimeout := wt, rs485Enabled := rs }
        = Except.ok t ∧
        t.ispeed = flag ∧ t.ospeed = flag ∧
        t.cflag &&& CREAD = CREAD ∧ t.cflag &&& CLOCAL = CLOCAL) ∧
    (∀ c : SerialConfig, lookupTbl baudRates c.baudRate = none →
      newTermios c = Except.error TermiosErr.unsupportedBaud) ∧
    (∀ (c : SerialConfig) (flag : Nat), lookupTbl baudRates c.baudRate = some flag →
      lookupTbl charSizes c.dataBits = none →
      newTermios c = Except.error TermiosErr.unsupportedCharSize) ∧
    (∀ (c : SerialConfig) (flag dflag : Nat), lookupTbl baudRates c.baudRate = some flag →
      lookupTbl charSizes c.dataBits = some dflag →
      c.stopBits ≠ 0 → c.stopBits ≠ 1 → c.stopBits ≠ 2 →
      newTermios c = Except.error TermiosErr.unsupportedStopBits) ∧
    (∀ (c : SerialConfig) (flag dflag : Nat), lookupTbl baudRates c.baudRate = some flag →
      lookupTbl charSizes c.dataBits = some dflag →
      (c.stopBits = 0 ∨ c.stopBits = 1 ∨ c.stopBits = 2) →
      4 < c.parity →
      newTermios c = Except.error TermiosErr.unsupportedParity) := by
  refine ⟨?_, ?_, ?_, ?_, ?_⟩
  · intro r flag hmem db hdb sb hsb par hpar rt wt rs
    have h1 := List.all_eq_true.mp newTermios_supported_check (r, flag) hmem
    have h2 := List.all_eq_true.mp h1 db hdb
    have h3 := List.all_eq_true.mp h2 sb hsb
    have h4 := List.all_eq_true.mp h3 par hpar
    rw [newTermios_config_irrel]
    cases hnt : newTermios
        { baudRate := r, dataBits := db, stopBits := sb, parity := par,
          readTimeout := 0, writeTimeout := 0, rs485Enabled := false } with
    | error e =>
      rw [hnt] at h4
      simp [termiosSpeedAndControlOk] at h4
    | ok t =>
      rw [hnt] at h4
      simp only [termiosSpeedAndControlOk, Bool.and_eq_true, beq_iff_eq] at h4
      exact ⟨t, rfl, h4.1.1.1, h4.1.1.2, h4.1.2, h4.2⟩
  · intro c h
    simp [newTermios, h]
  · intro c flag h1 h2
    simp [newTermios, h1, h2]
  · intro c flag dflag h1 h2 h3 h4 h5
    simp [newTermios, h1, h2, h3, h4, h5]
  · intro c flag dflag h1 h2 hsb hpar
    have hp0 : c.parity ≠ 0 := by omega
    have hp1 : c.parity ≠ 1 := by omega
    have hp2 : c.parity ≠ 2 := by omega
    have hp3 : c.parity ≠ 3 := by omega
    have hp4 : c.parity ≠ 4 := by omega
    rcases hsb with h | h | h <;>
      simp [newTermios, newTermiosParity, h1, h2, h, PARITY_NONE, PARITY_ODD,
        PARITY_EVEN, PARITY_MARK, PARITY_SPACE, hp0, hp1, hp2, hp3, hp4]

/-- Concrete instantiation of the C7 theorem: 9600-8-1-none succeeds with
speed flag 0o15 and the control bits on; baud 12345, data bits 9, stop bits
3, and parity 7 each taken alone produce their configuration error. -/
theorem newTermios_supported_total_unsupported_rejected_witness :
    (∃ t, newTermios
        { baudRate := 9600, dataBits := 8, stopBits := 1, parity := 0,
          readTimeout := 7, writeTimeout := 7, rs485Enabled := true }
      = Except.ok t ∧
      t.ispeed = 0o15 ∧ t.ospeed = 0o15 ∧
      t.cflag &&& CREAD = CREAD ∧ t.cflag &&& CLOCAL = CLOCAL) ∧
    newTermios
        { baudRate := 12345, dataBits := 8, stopBits := 1, parity := 0,
          readTimeout := 0, writeTimeout := 0, rs485Enabled := false }
      = Except.error TermiosErr.unsupportedBaud ∧
    newTermios
        { baudRate := 9600, dataBits := 9, stopBits := 1, parity := 0,
          readTimeout := 0, writeTimeout := 0, rs485Enabled := false }
      = Except.error TermiosErr.unsupportedCharSize ∧
    newTermios
        { baudRate := 9600, dataBits := 8, stopBits := 3, parity := 0,
          readTimeout := 0, writeTimeout := 0, rs485Enabled := false }
      = Except.error TermiosErr.unsupportedStopBits ∧
    newTermios
        { baudRate := 9600, dataBits := 8, stopBits := 1, parity := 7,
          readTimeout := 0, writeTimeout := 0, rs485Enabled := false }
      = Except.error TermiosErr.unsupportedParity := by
  refine ⟨?_, ?_, ?_, ?_, ?_⟩
  · exact newTermios_supported_total_unsupported_rejected.1 9600 0o15 (by decide)
      8 (by decide) 1 (by decide) 0 (by decide) 7 7 true
  · exact newTermios_supported_total_unsupported_rejected.2.1
      { baudRate := 12345, dataBits := 8, stopBits := 1, parity := 0,
        readTimeout := 0, writeTimeout := 0, rs485Enabled := false } (by decide)
  · exact newTermios_supported_total_unsupported_rejected.2.2.1
      { baudRate := 9600, dataBits := 9, stopBits := 1, parity := 0,
        readTimeout := 0, writeTimeout := 0, rs485Enabled := false } 0o15 (by decide) (by decide)
  · exact newTermios_supported_total_unsupported_rejected.2.2.2.1
      { baudRate := 9600, dataBits := 8, stopBits := 3, parity := 0,
        readTimeout := 0, writeTimeout := 0, rs485Enabled := false } 0o15 CS8
      (by decide) (by decide) (by decide) (by decide) (by decide)
  · exact newTermios_supported_total_unsupported_rejected.2.2.2.2
      { baudRate := 9600, dataBits := 8, stopBits := 1, parity := 7,
        readTimeout := 0, writeTimeout := 0, rs485Enabled := false } 0o15 CS8
      (by decide) (by decide) (by decide) (by decide)

end Endpoint







